import Mathlib

/-!
Shallow embedding of the PetPulse API triage pipeline (src/server.js).

The server exposes three POST handlers — /tips, /confirm and /plan — each of
which validates the request, calls the OpenAI gateway, and post-processes the
generator's JSON before answering.  The embedding models each handler as a
pure function of the (already-parsed) request fields together with the
gateway's reply, given as an `Except String _` value: `Except.error e` models
the gateway helper throwing (transport/auth/parse failure), which the route's
try/catch turns into an HTTP 500 response.

JavaScript dynamic values are modelled by the attribute the code actually
inspects: a field read with `safeText` is an `Option String` (`none` = absent
or not a string, both of which `safeText` maps to `""`); a field read with
`asStringList` is a `JListVal`; the `round` field is a `RoundInput` covering
undefined/null/boolean/number/string values.  `Number(...)` coercion of a
string is modelled for the optionally-signed decimal-integer fragment; all
other strings map to `none`, which the code treats exactly like NaN.
-/

/-- JS whitespace test used by `String.prototype.trim`, restricted to the
ASCII whitespace characters (space, tab, CR, LF). -/
def jsWhitespace (c : Char) : Bool := c.isWhitespace

/-- Model of JS `String.prototype.trim`. -/
def jsTrim (s : String) : String :=
  String.mk (((s.data.dropWhile jsWhitespace).reverse.dropWhile jsWhitespace).reverse)

/-- Model of JS `String.prototype.toUpperCase` (ASCII characters). -/
def jsToUpper (s : String) : String :=
  String.mk (s.data.map Char.toUpper)

/-- `safeText(v)` from server.js: `typeof v === "string" ? v.trim() : ""`.
`none` models a value that is absent or not a string. -/
def safeText : Option String → String
  | some s => jsTrim s
  | none => ""

/-- JS `a || b` specialised to strings: the empty string is falsy. -/
def orElseStr (a b : String) : String := if a = "" then b else a

/-- A JS value in a position the code feeds to `asStringList`:
an array (elements already stringified), a plain string, or anything else. -/
inductive JListVal where
  | arr (xs : List String)
  | str (s : String)
  | other
deriving DecidableEq, Repr

/-- `asStringList(v)` from server.js: arrays are trimmed element-wise and
empty entries dropped; a non-empty trimmed string becomes a singleton;
everything else becomes `[]`. -/
def asStringList : JListVal → List String
  | .arr xs => (xs.map jsTrim).filter (· != "")
  | .str s => if jsTrim s = "" then [] else [jsTrim s]
  | .other => []

/-- A JS value in an integer field position, collapsed to what `parseInt`
yields: `absent` models undefined/null (so that `??` falls through),
`val none` a present but unparseable value (parseInt gives NaN),
`val (some n)` a present value parsing to `n`. -/
inductive JIntField where
  | absent
  | val (parsed : Option Int)
deriving DecidableEq, Repr

/-- `toInt(v, null)` from server.js applied to a single field. -/
def fieldToInt : JIntField → Option Int
  | .absent => none
  | .val p => p

/-- `toInt(a ?? b, null)`: the `??` operator falls through only when the
first field is undefined/null. -/
def coalesceToInt (a b : JIntField) : Option Int :=
  match a with
  | .absent => fieldToInt b
  | .val p => p

/-- `clamp(n, min, max)` from server.js, which passes non-finite values
(here: `none`, the model of null/NaN) through unchanged. -/
def clampOpt (n : Option Int) (lo hi : Int) : Option Int :=
  match n with
  | none => none
  | some m => some (max lo (min hi m))

/-- Raw client-supplied profile object (the fields server.js reads). -/
structure InProfile where
  petName : Option String
  species : Option String
  breed : Option String
  petGender : Option String
  ageYears : JIntField
  age : JIntField
  ageMonths : JIntField
  weightLb : Option String
  city : Option String
  country : Option String
deriving DecidableEq, Repr

/-- Canonical profile produced by `normalizeProfile`. -/
structure Profile where
  petName : String
  species : String
  breed : String
  petGender : String
  ageYears : Option Int
  ageMonths : Option Int
  weightLb : String
  city : String
  country : String
deriving DecidableEq, Repr

/-- `normalizeProfile(p)` from server.js.  `weightLb` is modelled by the
string it renders as, with `p.weightLb ?? "Unknown"` for absent values. -/
def normalizeProfile (p : InProfile) : Profile :=
  { petName := safeText p.petName
    species := safeText p.species
    breed := safeText p.breed
    petGender := safeText p.petGender
    ageYears := clampOpt (coalesceToInt p.ageYears p.age) 0 50
    ageMonths := clampOpt (fieldToInt p.ageMonths) 0 11
    weightLb := p.weightLb.getD "Unknown"
    city := safeText p.city
    country := safeText p.country }

/-- JS string interpolation of a number-or-null value: null renders "null". -/
def jsShow : Option Int → String
  | some n => toString n
  | none => "null"

/-- `formatPetAge(y, m)` from server.js.  In JS `null > 0` is false, which
`Option.getD 0` reproduces. -/
def formatPetAge (y m : Option Int) : String :=
  if y = none ∧ m = none then "Unknown"
  else if 0 < y.getD 0 ∧ 0 < m.getD 0 then jsShow y ++ " years " ++ jsShow m ++ " months"
  else if 0 < y.getD 0 then jsShow y ++ " years"
  else jsShow m ++ " months"

/-- The seven lines of `profileBlock(p)` from server.js, before joining. -/
def profileLines (p : InProfile) : List String :=
  let prof := normalizeProfile p
  [ "Pet name: " ++ orElseStr prof.petName "Unknown"
  , "Species: " ++ orElseStr prof.species "Unknown"
  , "Breed: " ++ orElseStr prof.breed "Unknown"
  , "Sex: " ++ orElseStr prof.petGender "Unknown"
  , "Age: " ++ formatPetAge prof.ageYears prof.ageMonths
  , "Weight (lb): " ++ prof.weightLb
  , "Location: " ++ orElseStr prof.city "Unknown" ++ ", " ++ orElseStr prof.country "Unknown" ]

/-- `profileBlock(p)` from server.js. -/
def profileBlock (p : InProfile) : String :=
  String.intercalate "\n" (profileLines p)

/-- The default plan content record returned by `defaultPlanText` (the JS
object literal has these five fields; the response disclaimer default lives
inline in the /plan route, not in this table). -/
structure PlanText where
  headline : String
  why : List String
  do_now : List String
  avoid : List String
  red_flags : List String
deriving DecidableEq, Repr

/-- `defaultPlanText(urgency)` from server.js: three hand-authored content
tables keyed by the trimmed, uppercased urgency, with the MONITOR_24H table
as the fallback for anything unrecognized. -/
def defaultPlanText (urgency : String) : PlanText :=
  let u := jsToUpper (jsTrim urgency)
  if u = "VET_NOW" then
    { headline := "Seek veterinary care as soon as possible"
      why := [
        "Some patterns can be more urgent, and it may be safer to have a vet assess your pet.",
        "Getting help sooner can prevent complications if this worsens quickly."]
      do_now := [
        "Contact a veterinary clinic or emergency vet now and describe the symptoms clearly.",
        "Keep your pet calm, warm, and supervised while you prepare to go.",
        "If vomiting/diarrhea is present, bring a brief timeline (when started, how often)."]
      avoid := [
        "Avoid giving human medications unless a veterinarian instructs you.",
        "Avoid forcing food or water if your pet is actively vomiting or struggling to swallow."]
      red_flags := [
        "Collapse, severe weakness, or trouble breathing",
        "Repeated vomiting or inability to keep water down",
        "Blood in vomit or stool, or obvious severe pain"] }
  else if u = "HOME" then
    { headline := "Home care may be appropriate for now"
      why := [
        "No clear urgent red flags stand out from what you shared.",
        "Supportive care and close observation may help while you monitor for changes."]
      do_now := [
        "Ensure fresh water is available; offer small amounts more often if needed.",
        "Provide a quiet, comfortable place to rest and keep activity low.",
        "Track appetite, energy, bathroom changes, and any vomiting/diarrhea."]
      avoid := [
        "Avoid rich treats/new foods while symptoms are ongoing.",
        "Avoid human medications unless a veterinarian instructs you."]
      red_flags := [
        "Symptoms worsen or new symptoms appear",
        "Your pet becomes very lethargic, painful, or won’t drink",
        "Any blood in vomit/stool or repeated vomiting"] }
  else
    { headline := "Monitor closely over the next 24 hours"
      why := [
        "There don’t appear to be urgent red flags right now, but close monitoring is a cautious next step.",
        "If anything worsens or doesn’t improve, checking with a vet is the safest move."]
      do_now := [
        "Ensure your pet has access to fresh water and a calm resting area.",
        "Monitor appetite, energy, and bathroom habits; note any vomiting/diarrhea.",
        "Reassess within 24 hours (sooner if red flags appear)."]
      avoid := [
        "Avoid giving human medications unless directed by a veterinarian.",
        "Avoid strenuous activity until your pet seems back to normal."]
      red_flags := [
        "Repeated vomiting or inability to keep water down",
        "Blood in vomit or stool",
        "Severe lethargy, collapse, or signs of significant pain",
        "Trouble breathing, bloated abdomen, or repeated unproductive retching"] }

/-- A follow-up question as emitted by `sanitizeQuestions`. -/
structure Question where
  id : String
  text : String
  type : String
  options : List String
deriving DecidableEq, Repr

/-- A raw question object from the generator, before sanitization.  `none`
models a field that is absent or of the wrong dynamic type. -/
structure RawQ where
  id : Option String
  text : Option String
  type : Option String
  options : Option (List String)
deriving DecidableEq, Repr

/-- The three question types `sanitizeQuestions` recognizes. -/
def questionTypes : List String := ["yes_no", "single_choice", "short_text"]

/-- `sanitizeQuestions(raw)` from server.js: a non-array becomes `[]`; each
entry gets a fallback id `q_<i+1>`, fallback text, a recognized type
(falling back to short_text), and trimmed, non-empty options. -/
def sanitizeQuestions : Option (List RawQ) → List Question
  | none => []
  | some raw =>
    List.mapIdx (fun i (q : RawQ) =>
      { id := orElseStr (safeText q.id) ("q_" ++ toString (i + 1))
        text := orElseStr (safeText q.text) "Please share a bit more detail."
        type := match q.type with
          | some t => if t ∈ questionTypes then t else "short_text"
          | none => "short_text"
        options := match q.options with
          | some os => (os.map jsTrim).filter (· != "")
          | none => [] }) raw

/-- A JS value supplied in the `round` field of a /plan request. -/
inductive RoundInput where
  | undef
  | null
  | bool (b : Bool)
  | int (n : Int)
  | str (s : String)
deriving DecidableEq, Repr

/-- JS truthiness of a `round` value. -/
def jsTruthy : RoundInput → Bool
  | .undef => false
  | .null => false
  | .bool b => b
  | .int n => n != 0
  | .str s => s != ""

/-- Digits-to-number helper for the decimal fragment of JS `Number()`. -/
def digitsToNat (l : List Char) : Nat :=
  l.foldl (fun a c => a * 10 + (c.toNat - 48)) 0

/-- JS `Number()` on a string, modelled for the optionally-signed
decimal-integer fragment (with surrounding whitespace); every other string
maps to `none`, which downstream code treats exactly like NaN. -/
def jsStrToNumber (s : String) : Option Int :=
  let t := jsTrim s
  if t.data = [] then some 0
  else if t.data.all Char.isDigit then some (Int.ofNat (digitsToNat t.data))
  else if t.data.head? = some '-' ∧ t.data.tail ≠ [] ∧ t.data.tail.all Char.isDigit then
    some (-(Int.ofNat (digitsToNat t.data.tail)))
  else none

/-- JS `Number()` coercion of a `round` value.  `none` models NaN (and, for
strings, also non-integer numeric results, which the membership check
`[1,2].includes(r)` rejects just like NaN). -/
def jsToNumber : RoundInput → Option Int
  | .undef => none
  | .null => some 0
  | .bool b => some (if b then 1 else 0)
  | .int n => some n
  | .str s => jsStrToNumber s

/-- `Number(round || 1)` from the /plan route: a falsy round value is
replaced by the literal 1 before coercion. -/
def roundCoerce (v : RoundInput) : Option Int :=
  if jsTruthy v then jsToNumber v else some 1

/-- The fields of the generator's /plan JSON object that server.js reads. -/
structure GenPlanData where
  result_type : Option String
  questions : Option (List RawQ)
  reason : Option String
  urgency : Option String
  headline : Option String
  why : JListVal
  do_now : JListVal
  avoid : JListVal
  red_flags : JListVal
  disclaimer : Option String
deriving DecidableEq, Repr

/-- A generator object with every field absent/unusable. -/
def emptyGenData : GenPlanData :=
  { result_type := none, questions := none, reason := none, urgency := none,
    headline := none, why := .other, do_now := .other, avoid := .other,
    red_flags := .other, disclaimer := none }

/-- The JSON body of a PLAN response from the /plan route. -/
structure PlanOut where
  urgency : String
  headline : String
  why : List String
  do_now : List String
  avoid : List String
  red_flags : List String
  disclaimer : String
deriving DecidableEq, Repr

/-- The PLAN normalization block at the end of the /plan route ("Normalize
PLAN so the app never shows empty sections"): urgency is the trimmed,
uppercased generator urgency or MONITOR_24H when that is empty; each content
field falls back to the `defaultPlanText` table for that urgency; the
disclaimer falls back to a fixed string. -/
def buildPlan (data : GenPlanData) : PlanOut :=
  let urgency := orElseStr (jsToUpper (safeText data.urgency)) "MONITOR_24H"
  let defaults := defaultPlanText urgency
  let why := asStringList data.why
  let doNow := asStringList data.do_now
  let avoid := asStringList data.avoid
  let redFlags := asStringList data.red_flags
  { urgency := urgency
    headline := orElseStr (safeText data.headline) defaults.headline
    why := if why = [] then defaults.why else why
    do_now := if doNow = [] then defaults.do_now else doNow
    avoid := if avoid = [] then defaults.avoid else avoid
    red_flags := if redFlags = [] then defaults.red_flags else redFlags
    disclaimer := orElseStr (safeText data.disclaimer)
      "This is not a diagnosis. If symptoms worsen or red flags appear, contact a veterinarian." }

/-- The observable HTTP response of the /plan route. -/
inductive PlanResult where
  | clientError (msg : String)
  | serviceError (msg : String)
  | needMoreInfo (selected_issue_title reason : String) (questions : List Question)
  | plan (out : PlanOut)
deriving DecidableEq, Repr

/-- The urgency field of a PLAN response, when the response is one. -/
def PlanResult.urgencyOf : PlanResult → Option String
  | .plan p => some p.urgency
  | _ => none

/-- The headline field of a PLAN response, when the response is one. -/
def PlanResult.headlineOf : PlanResult → Option String
  | .plan p => some p.headline
  | _ => none

/-- Whether a /plan response is the 400 client-error shape. -/
def PlanResult.isClientErr : PlanResult → Bool
  | .clientError _ => true
  | _ => false

/-- Whether a /plan response is a PLAN outcome. -/
def PlanResult.isPlanOutcome : PlanResult → Bool
  | .plan _ => true
  | _ => false

/-- The body of the /plan route after input parsing: `notes` and
`issueTitle` are the trimmed symptom notes and selected issue title, `r` is
`Number(round || 1)`, and `gw` the gateway call's outcome.  Mirrors the
validation order, the NEED_MORE_INFO branch (allowed only at round 1 with at
least one sanitized question, truncated to 3), and the PLAN fallback. -/
def planCore (notes issueTitle : String) (r : Option Int)
    (gw : Except String GenPlanData) : PlanResult :=
  if notes = "" then .clientError "Missing symptoms"
  else if issueTitle = "" then .clientError "Missing selected_issue_title"
  else if ¬(r = some 1 ∨ r = some 2) then .clientError "round must be 1 or 2"
  else
    match gw with
    | .error e => .serviceError e
    | .ok data =>
      if data.result_type = some "NEED_MORE_INFO" ∧ r = some 1 ∧
          0 < (sanitizeQuestions data.questions).length then
        .needMoreInfo issueTitle
          (orElseStr (safeText data.reason) "A bit more detail will help.")
          ((sanitizeQuestions data.questions).take 3)
      else
        .plan (buildPlan data)

/-- The /plan route from server.js. -/
def planHandler (symptoms selected_issue_title : Option String)
    (round : RoundInput) (gw : Except String GenPlanData) : PlanResult :=
  planCore (safeText symptoms) (safeText selected_issue_title) (roundCoerce round) gw

/-- An issue record from the /tips generator output.  `rank` is the value of
`Number(it.rank)`, with `none` modelling NaN. -/
structure Issue where
  id : String
  title : String
  rank : Option Int
  level : String
  why : List String
  do_today : List String
  watch : List String
deriving DecidableEq, Repr

/-- The /tips generator payload as server.js reads it (`issues` is `none`
when absent or not an array, in which case the data passes through). -/
structure TipsData where
  title : String
  intro : String
  disclaimer : String
  issues : Option (List Issue)
deriving DecidableEq, Repr

/-- The sort key of the /tips defensive enforcement:
`(Number(a.rank) || 999)` — both NaN and 0 are falsy and become 999. -/
def rankKey : Option Int → Int
  | some n => if n = 0 then 999 else n
  | none => 999

/-- Stable insertion of an issue into a rank-sorted list: the new issue goes
after every existing issue whose key is less than or equal, matching the
stability ES2019 guarantees for `Array.prototype.sort`. -/
def insertByRank (x : Issue) : List Issue → List Issue
  | [] => [x]
  | y :: ys =>
    if rankKey y.rank ≤ rankKey x.rank then y :: insertByRank x ys
    else x :: y :: ys

/-- Stable ascending sort by `rankKey`, modelling
`issues.sort((a, b) => (Number(a.rank) || 999) - (Number(b.rank) || 999))`. -/
def sortByRank : List Issue → List Issue
  | [] => []
  | x :: xs => insertByRank x (sortByRank xs)

/-- The /tips defensive enforcement: keep at most the first 5 issues, sort
them by rank ascending, then overwrite each rank with its position + 1. -/
def enforceIssues (issues : List Issue) : List Issue :=
  List.mapIdx (fun idx (it : Issue) => { it with rank := some ((idx : Int) + 1) })
    (sortByRank (issues.take 5))

/-- The observable HTTP response of the /tips route. -/
inductive TipsResult where
  | clientError (msg : String)
  | serviceError (msg : String)
  | ok (data : TipsData)
deriving DecidableEq, Repr

/-- The number of issues in a successful /tips response. -/
def TipsResult.issueCount : TipsResult → Option Nat
  | .ok d => some ((d.issues.getD []).length)
  | _ => none

/-- The /tips route from server.js: reject empty symptoms, surface gateway
failure as a service error, and apply the defensive rank enforcement when
`data.issues` is an array. -/
def tipsHandler (symptoms : Option String) (gw : Except String TipsData) : TipsResult :=
  if safeText symptoms = "" then .clientError "Missing symptoms"
  else
    match gw with
    | .error e => .serviceError e
    | .ok data =>
      match data.issues with
      | some xs => .ok { data with issues := some (enforceIssues xs) }
      | none => .ok data

/-- A question object in the /confirm generator payload (passed through). -/
structure ConfirmQuestion where
  id : String
  text : String
  type : String
  options : List String
deriving DecidableEq, Repr

/-- The /confirm generator payload (returned to the client verbatim). -/
structure ConfirmData where
  selected_issue_title : String
  questions : List ConfirmQuestion
deriving DecidableEq, Repr

/-- The observable HTTP response of the /confirm route. -/
inductive ConfirmResult where
  | clientError (msg : String)
  | serviceError (msg : String)
  | ok (data : ConfirmData)
deriving DecidableEq, Repr

/-- The /confirm route from server.js: the only validation is on the symptom
notes; the selected issue title is trimmed into the prompt but never
checked, and the gateway payload is returned verbatim. -/
def confirmHandler (symptoms selected_issue_title : Option String)
    (gw : Except String ConfirmData) : ConfirmResult :=
  if safeText symptoms = "" then .clientError "Missing symptoms"
  else
    match gw with
    | .error e => .serviceError e
    | .ok data => .ok data

/-- The avoid list of a PLAN response, when the response is one. -/
def PlanResult.avoidOf : PlanResult → Option (List String)
  | .plan p => some p.avoid
  | _ => none

/-- Well-formedness of a single sanitized question: non-empty id, non-empty
text, and a recognized type. -/
def questionWellFormed (q : Question) : Bool :=
  q.id != "" && q.text != "" && decide (q.type ∈ questionTypes)

/-- Well-formedness of a whole question list. -/
def questionsWellFormed (qs : List Question) : Bool :=
  qs.all questionWellFormed

/-- A sample issue record for concrete runs of the /tips route. -/
def sampleIssue (id title : String) (rank : Option Int) : Issue :=
  { id := id, title := title, rank := rank, level := "NHE",
    why := ["It may fit the notes."], do_today := ["Observe closely."],
    watch := ["Any worsening."] }

/-- A /tips generator payload with only two issues (fewer than the schema
minimum of 3). -/
def tipsTwo : TipsData :=
  { title := "Things to watch today", intro := "Based on what you shared.",
    disclaimer := "Educational guidance only.",
    issues := some [sampleIssue "i1" "Possible flea allergy (possible)" (some 2),
                    sampleIssue "i2" "Possible dry skin (possible)" (some 1)] }

/-- A /tips generator payload with six issues and messy ranks. -/
def tipsSix : TipsData :=
  { title := "Things to watch today", intro := "Based on what you shared.",
    disclaimer := "Educational guidance only.",
    issues := some [sampleIssue "i1" "Possible issue one (possible)" (some 7),
                    sampleIssue "i2" "Possible issue two (possible)" (some 2),
                    sampleIssue "i3" "Possible issue three (possible)" none,
                    sampleIssue "i4" "Possible issue four (possible)" (some 2),
                    sampleIssue "i5" "Possible issue five (possible)" (some 0),
                    sampleIssue "i6" "Possible issue six (possible)" (some 1)] }

/-- The six-issue list inside `tipsSix`. -/
def sixIssues : List Issue :=
  [sampleIssue "i1" "Possible issue one (possible)" (some 7),
   sampleIssue "i2" "Possible issue two (possible)" (some 2),
   sampleIssue "i3" "Possible issue three (possible)" none,
   sampleIssue "i4" "Possible issue four (possible)" (some 2),
   sampleIssue "i5" "Possible issue five (possible)" (some 0),
   sampleIssue "i6" "Possible issue six (possible)" (some 1)]

/-- A well-formed /confirm generator payload. -/
def confirmOk : ConfirmData :=
  { selected_issue_title := "Possible upset stomach",
    questions := [{ id := "q1", text := "How long has this lasted?",
                    type := "single_choice",
                    options := ["under a day", "1 to 3 days", "longer"] }] }

/-- Generator /plan payload that only supplies an unrecognized urgency. -/
def d_c1 : GenPlanData := { emptyGenData with urgency := some "EMERGENCY" }

/-- Generator /plan payload claiming PLAN with an unrecognized urgency and
every content field missing. -/
def d_c3 : GenPlanData :=
  { emptyGenData with result_type := some "PLAN", urgency := some "EMERGENCY" }

/-- Generator /plan payload claiming PLAN with a padded headline, a supplied
why list, and a missing avoid list. -/
def d_c6 : GenPlanData :=
  { emptyGenData with
    result_type := some "PLAN"
    urgency := some "HOME"
    headline := some "  Rest and hydration  "
    why := .arr ["Mild tiredness can follow a busy day."]
    avoid := .other }

/-- Generator /plan payload returning NEED_MORE_INFO with one raw question
whose fields all need sanitizing. -/
def d_c7 : GenPlanData :=
  { emptyGenData with
    result_type := some "NEED_MORE_INFO"
    reason := some "  Need a little more context.  "
    questions := some [{ id := none, text := some "  Since when?  ",
                         type := some "multi", options := none }] }

/-- A client profile object with every field absent. -/
def emptyProfile : InProfile :=
  { petName := none, species := none, breed := none, petGender := none,
    ageYears := .absent, age := .absent, ageMonths := .absent,
    weightLb := none, city := none, country := none }

/-- A client profile whose age fields are present but out of range. -/
def wildProfile : InProfile :=
  { emptyProfile with
    petName := some " Max "
    species := some "dog"
    ageYears := .val (some 60)
    ageMonths := .val (some (-3))
    weightLb := some "12" }

theorem orElseStr_ne (a b : String) (hb : b ≠ "") : orElseStr a b ≠ "" := by
  unfold orElseStr
  split
  · exact hb
  · assumption

theorem append_ne_empty (s t : String) (h : s.data ≠ []) : s ++ t ≠ "" := by
  intro he
  apply h
  have hdata : (s ++ t).data = s.data ++ t.data := rfl
  rw [he] at hdata
  have : s.data ++ t.data = [] := hdata.symm
  exact (List.append_eq_nil.mp this).1

theorem defaultPlanText_nonempty (u : String) :
    (defaultPlanText u).headline ≠ "" ∧ (defaultPlanText u).why ≠ [] ∧
    (defaultPlanText u).do_now ≠ [] ∧ (defaultPlanText u).avoid ≠ [] ∧
    (defaultPlanText u).red_flags ≠ [] := by
  simp only [defaultPlanText]
  split
  · decide
  · split <;> decide

theorem sanitizeQuestions_wellFormed (raw : Option (List RawQ)) :
    ∀ q ∈ sanitizeQuestions raw, questionWellFormed q = true := by
  cases raw with
  | none => intro q hq; cases hq
  | some l =>
    intro q hq
    rw [sanitizeQuestions, List.mapIdx_eq_enum_map] at hq
    obtain ⟨⟨i, a⟩, _, rfl⟩ := List.mem_map.mp hq
    simp only [Function.uncurry, questionWellFormed, Bool.and_eq_true, bne_iff_ne, ne_eq,
      decide_eq_true_eq]
    refine ⟨⟨?_, ?_⟩, ?_⟩
    · exact orElseStr_ne _ _ (append_ne_empty _ _ (by decide))
    · exact orElseStr_ne _ _ (by decide)
    · cases a.type with
      | none => decide
      | some t =>
        simp only []
        split
        · assumption
        · decide

theorem length_insertByRank (x : Issue) (l : List Issue) :
    (insertByRank x l).length = l.length + 1 := by
  induction l with
  | nil => rfl
  | cons y ys ih =>
    rw [insertByRank]
    split
    · simp [ih]
    · rfl

theorem length_sortByRank (l : List Issue) :
    (sortByRank l).length = l.length := by
  induction l with
  | nil => rfl
  | cons y ys ih =>
    rw [sortByRank, length_insertByRank, ih]
    simp

theorem enforceIssues_length (xs : List Issue) :
    (enforceIssues xs).length = min xs.length 5 := by
  rw [enforceIssues, List.length_mapIdx, length_sortByRank, List.length_take]
  omega

theorem enforceIssues_rank (xs : List Issue) (i : Nat)
    (h : i < (enforceIssues xs).length) :
    ((enforceIssues xs).get ⟨i, h⟩).rank = some ((i : Int) + 1) := by
  rw [List.get_eq_getElem]
  unfold enforceIssues at h ⊢
  rw [List.getElem_mapIdx]

/-- C1 (counterexample): at round 2 a gateway failure yields a 500 service
error, not a PLAN, and a recognized-shaped PLAN with urgency "EMERGENCY" is
returned with that urgency, outside {HOME, MONITOR_24H, VET_NOW}. -/
theorem C1_counterexample :
    planHandler (some "vomiting since morning") (some "Possible upset stomach")
      (.int 2) (.error "gateway down") = .serviceError "gateway down" ∧
    (planHandler (some "vomiting since morning") (some "Possible upset stomach")
      (.int 2) (.ok d_c1)).urgencyOf = some "EMERGENCY" ∧
    "EMERGENCY" ∉ (["HOME", "MONITOR_24H", "VET_NOW"] : List String) := by
  decide

/-- C1 (amended): for every Plan call with round 2 whose gateway call
succeeds, the response is a PLAN whose why/do_now/avoid/red_flags are all
non-empty and whose urgency is the trimmed uppercased generator urgency, or
MONITOR_24H when that is empty; a NEED_MORE_INFO generator result at round 2
is thereby rewritten into a PLAN.  A gateway failure instead surfaces as a
service error. -/
theorem C1_round2_plan (s t : Option String) (v : RoundInput) (e : String)
    (d : GenPlanData)
    (hs : safeText s ≠ "") (ht : safeText t ≠ "") (hr : roundCoerce v = some 2) :
    planHandler s t v (.error e) = .serviceError e ∧
    planHandler s t v (.ok d) = .plan (buildPlan d) ∧
    (buildPlan d).why ≠ [] ∧ (buildPlan d).do_now ≠ [] ∧
    (buildPlan d).avoid ≠ [] ∧ (buildPlan d).red_flags ≠ [] ∧
    (buildPlan d).urgency = orElseStr (jsToUpper (safeText d.urgency)) "MONITOR_24H" := by
  obtain ⟨hh, hw, hd, ha, hrf⟩ :=
    defaultPlanText_nonempty (orElseStr (jsToUpper (safeText d.urgency)) "MONITOR_24H")
  refine ⟨?_, ?_, ?_, ?_, ?_, ?_, rfl⟩
  · simp [planHandler, planCore, hr, hs, ht]
  · simp [planHandler, planCore, hr, hs, ht]
  · simp only [buildPlan]
    split
    · exact hw
    · assumption
  · simp only [buildPlan]
    split
    · exact hd
    · assumption
  · simp only [buildPlan]
    split
    · exact ha
    · assumption
  · simp only [buildPlan]
    split
    · exact hrf
    · assumption

/-- C1 witness: the amended round-2 theorem instantiated at a concrete
request whose generator reply is the unrecognized-urgency payload. -/
theorem C1_round2_plan_witness :
    safeText (some "vomiting since morning") ≠ "" ∧
    safeText (some "Possible upset stomach") ≠ "" ∧
    roundCoerce (.int 2) = some 2 ∧
    (planHandler (some "vomiting since morning") (some "Possible upset stomach")
        (.int 2) (.error "boom") = .serviceError "boom" ∧
     planHandler (some "vomiting since morning") (some "Possible upset stomach")
        (.int 2) (.ok d_c1) = .plan (buildPlan d_c1) ∧
     (buildPlan d_c1).why ≠ [] ∧ (buildPlan d_c1).do_now ≠ [] ∧
     (buildPlan d_c1).avoid ≠ [] ∧ (buildPlan d_c1).red_flags ≠ [] ∧
     (buildPlan d_c1).urgency = orElseStr (jsToUpper (safeText d_c1.urgency)) "MONITOR_24H") :=
  ⟨by decide, by decide, by decide,
   C1_round2_plan (some "vomiting since morning") (some "Possible upset stomach")
     (.int 2) "boom" d_c1 (by decide) (by decide) (by decide)⟩

/-- C2 (counterexample): when the generator returns only two issues, the
/tips response carries exactly two issues, outside the claimed range 3–5. -/
theorem C2_counterexample :
    (tipsHandler (some "scratching a lot") (.ok tipsTwo)).issueCount = some 2 := by
  decide

/-- C2 (amended): a /tips response built from a generator result with an
issues array of length N carries min N 5 issues (hence 3–5 whenever the
generator honored its own 3–5 schema), and their ranks are exactly
1..count in ascending array order, whatever ranks the generator returned. -/
theorem C2_tips_ranks (s : Option String) (d : TipsData) (xs : List Issue)
    (hs : safeText s ≠ "") (hx : d.issues = some xs) :
    tipsHandler s (.ok d) = .ok { d with issues := some (enforceIssues xs) } ∧
    (enforceIssues xs).length = min xs.length 5 ∧
    (∀ i : Nat, ∀ h : i < (enforceIssues xs).length,
      ((enforceIssues xs).get ⟨i, h⟩).rank = some ((i : Int) + 1)) ∧
    (3 ≤ xs.length → 3 ≤ (enforceIssues xs).length) := by
  refine ⟨?_, enforceIssues_length xs, fun i h => enforceIssues_rank xs i h, ?_⟩
  · simp [tipsHandler, hs, hx]
  · intro h3
    rw [enforceIssues_length]
    omega

/-- C2 witness: the amended theorem instantiated at the six-issue payload;
the response keeps five issues. -/
theorem C2_tips_ranks_witness :
    safeText (some "scratching a lot") ≠ "" ∧ tipsSix.issues = some sixIssues ∧
    tipsHandler (some "scratching a lot") (.ok tipsSix)
      = .ok { tipsSix with issues := some (enforceIssues sixIssues) } ∧
    (enforceIssues sixIssues).length = min sixIssues.length 5 :=
  ⟨by decide, by decide,
   (C2_tips_ranks (some "scratching a lot") tipsSix sixIssues (by decide) (by decide)).1,
   (C2_tips_ranks (some "scratching a lot") tipsSix sixIssues (by decide) (by decide)).2.1⟩

/-- C3 (counterexample): a PLAN outcome with the unrecognized urgency
"EMERGENCY" is returned carrying urgency "EMERGENCY", not MONITOR_24H,
although the MONITOR_24H table supplies the missing headline. -/
theorem C3_counterexample :
    (planHandler (some "limping on front leg") (some "Possible sprain")
      (.int 1) (.ok d_c3)).urgencyOf = some "EMERGENCY" ∧
    (planHandler (some "limping on front leg") (some "Possible sprain")
      (.int 1) (.ok d_c3)).urgencyOf ≠ some "MONITOR_24H" ∧
    (planHandler (some "limping on front leg") (some "Possible sprain")
      (.int 1) (.ok d_c3)).headlineOf = some (defaultPlanText "MONITOR_24H").headline := by
  decide

/-- C3 (amended): in the Plan stage, a generator outcome with a non-empty
unrecognized urgency yields a PLAN that keeps that (trimmed, uppercased)
urgency value while the MONITOR_24H default table fills missing fields;
only a missing or empty urgency makes the returned urgency MONITOR_24H.
The other hypotheses record that trimming and uppercasing leave the
already-uppercased value outside the recognized set. -/
theorem C3_urgency_default (d d2 : GenPlanData)
    (hU0 : jsToUpper (safeText d.urgency) ≠ "")
    (hU1 : jsToUpper (jsTrim (jsToUpper (safeText d.urgency))) ≠ "VET_NOW")
    (hU2 : jsToUpper (jsTrim (jsToUpper (safeText d.urgency))) ≠ "HOME")
    (hU3 : jsToUpper (safeText d.urgency) ∉ (["HOME", "MONITOR_24H", "VET_NOW"] : List String))
    (hw : asStringList d.why = [])
    (hh : safeText d.headline = "")
    (h4 : safeText d2.urgency = "") :
    (buildPlan d).urgency = jsToUpper (safeText d.urgency) ∧
    (buildPlan d).urgency ∉ (["HOME", "MONITOR_24H", "VET_NOW"] : List String) ∧
    (buildPlan d).why = (defaultPlanText "MONITOR_24H").why ∧
    (buildPlan d).headline = (defaultPlanText "MONITOR_24H").headline ∧
    (buildPlan d2).urgency = "MONITOR_24H" := by
  have hu : orElseStr (jsToUpper (safeText d.urgency)) "MONITOR_24H"
      = jsToUpper (safeText d.urgency) := by
    unfold orElseStr
    rw [if_neg hU0]
  have hdef : defaultPlanText (jsToUpper (safeText d.urgency))
      = defaultPlanText "MONITOR_24H" := by
    simp only [defaultPlanText]
    rw [if_neg hU1, if_neg hU2]
    rfl
  have h1 : (buildPlan d).urgency = jsToUpper (safeText d.urgency) := by
    simp only [buildPlan]
    exact hu
  refine ⟨h1, ?_, ?_, ?_, ?_⟩
  · rw [h1]
    exact hU3
  · simp only [buildPlan, hu, hdef, hw, if_pos]
  · simp only [buildPlan, hu, hdef, hh]
    simp [orElseStr]
  · have hz : jsToUpper (safeText d2.urgency) = "" := by rw [h4]; rfl
    simp only [buildPlan, hz]
    simp [orElseStr]

/-- C3 witness: the amended theorem instantiated with urgency "EMERGENCY"
and a payload with no urgency at all. -/
theorem C3_urgency_default_witness :
    asStringList d_c3.why = [] ∧ safeText d_c3.headline = "" ∧
    ((buildPlan d_c3).urgency = jsToUpper (safeText d_c3.urgency) ∧
     (buildPlan d_c3).urgency ∉ (["HOME", "MONITOR_24H", "VET_NOW"] : List String) ∧
     (buildPlan d_c3).why = (defaultPlanText "MONITOR_24H").why ∧
     (buildPlan d_c3).headline = (defaultPlanText "MONITOR_24H").headline ∧
     (buildPlan emptyGenData).urgency = "MONITOR_24H") :=
  ⟨by decide, by decide,
   C3_urgency_default d_c3 emptyGenData (by decide) (by decide) (by decide) (by decide)
     (by decide) (by decide) (by decide)⟩

/-- C4 (counterexample): a /plan request with round 0 is not rejected — 0 is
falsy, so `Number(round || 1)` makes it round 1 and the request proceeds all
the way to a PLAN response. -/
theorem C4_counterexample :
    planHandler (some "vomiting since morning") (some "Possible gastritis")
        (.int 0) (.ok emptyGenData)
      = planHandler (some "vomiting since morning") (some "Possible gastritis")
        (.int 1) (.ok emptyGenData) ∧
    (planHandler (some "vomiting since morning") (some "Possible gastritis")
        (.int 0) (.ok emptyGenData)).isClientErr = false ∧
    (planHandler (some "vomiting since morning") (some "Possible gastritis")
        (.int 0) (.ok emptyGenData)).isPlanOutcome = true := by
  decide

/-- C4 (amended): a /plan request whose round value is truthy and does not
coerce to the number 1 or 2 (for example 3, or a non-numeric string) is
rejected with a 400 client error for every possible gateway behavior, i.e.
before the gateway is contacted; falsy round values are instead treated as
round 1. -/
theorem C4_round_validation (s t : Option String) (v : RoundInput)
    (gw : Except String GenPlanData)
    (hs : safeText s ≠ "") (ht : safeText t ≠ "")
    (htr : jsTruthy v = true)
    (hn : ¬(jsToNumber v = some 1 ∨ jsToNumber v = some 2)) :
    planHandler s t v gw = .clientError "round must be 1 or 2" := by
  have hr : roundCoerce v = jsToNumber v := by
    unfold roundCoerce
    rw [htr]
    simp
  simp [planHandler, planCore, hr, hs, ht, hn]

/-- C4 witness: round 3 and a non-numeric round string are both rejected. -/
theorem C4_round_validation_witness :
    safeText (some "vomiting since morning") ≠ "" ∧
    safeText (some "Possible gastritis") ≠ "" ∧
    jsTruthy (.int 3) = true ∧
    ¬(jsToNumber (.int 3) = some 1 ∨ jsToNumber (.int 3) = some 2) ∧
    planHandler (some "vomiting since morning") (some "Possible gastritis")
      (.int 3) (.ok emptyGenData) = .clientError "round must be 1 or 2" :=
  ⟨by decide, by decide, by decide, by decide,
   C4_round_validation (some "vomiting since morning") (some "Possible gastritis")
     (.int 3) (.ok emptyGenData) (by decide) (by decide) (by decide) (by decide)⟩

/-- C5: evaluation of the /confirm route at the failing input — symptoms
present but the selected-issue reference absent (or whitespace-only).  The
route does not return a client error: the gateway is contacted and its
outcome (success payload or failure) is what the client receives, which
contradicts the specified `missing selected-issue reference → client error
before the gateway`. -/
theorem C5_confirm_missing_title :
    confirmHandler (some "vomiting twice today") none (.ok confirmOk) = .ok confirmOk ∧
    confirmHandler (some "vomiting twice today") none (.error "gateway down")
      = .serviceError "gateway down" ∧
    confirmHandler (some "vomiting twice today") (some "   ") (.ok confirmOk)
      = .ok confirmOk := by
  decide

/-- C6 (counterexample): at round 1 a PLAN with the padded headline
"  Rest and hydration  " comes back with the trimmed headline, so supplied
fields are not preserved verbatim (the missing avoid list is still filled
from the per-urgency default table). -/
theorem C6_counterexample :
    (planHandler (some "seems tired") (some "Possible fatigue")
      (.int 1) (.ok d_c6)).headlineOf = some "Rest and hydration" ∧
    "Rest and hydration" ≠ "  Rest and hydration  " ∧
    (planHandler (some "seems tired") (some "Possible fatigue")
      (.int 1) (.ok d_c6)).avoidOf = some (defaultPlanText "HOME").avoid ∧
    (defaultPlanText "HOME").avoid ≠ [] := by
  decide

/-- C6 (amended): at round 1, a generator PLAN with some fields missing or
empty yields a PLAN response (no client-visible error) in which each missing
field is filled from the per-urgency default table and each supplied field
is preserved after trimming (strings trimmed; list entries trimmed and
empty entries dropped). -/
theorem C6_plan_healing (s t : Option String) (v : RoundInput) (d : GenPlanData)
    (hs : safeText s ≠ "") (ht : safeText t ≠ "") (hr : roundCoerce v = some 1)
    (hp : d.result_type = some "PLAN")
    (hhead : safeText d.headline ≠ "")
    (hwhy : asStringList d.why ≠ [])
    (havoid : asStringList d.avoid = []) :
    planHandler s t v (.ok d) = .plan (buildPlan d) ∧
    (buildPlan d).headline = safeText d.headline ∧
    (buildPlan d).why = asStringList d.why ∧
    (buildPlan d).avoid
      = (defaultPlanText (orElseStr (jsToUpper (safeText d.urgency)) "MONITOR_24H")).avoid ∧
    (buildPlan d).avoid ≠ [] := by
  refine ⟨?_, ?_, ?_, ?_, ?_⟩
  · simp [planHandler, planCore, hr, hs, ht, hp]
  · simp only [buildPlan, orElseStr]
    rw [if_neg hhead]
  · simp only [buildPlan]
    rw [if_neg hwhy]
  · simp only [buildPlan]
    rw [if_pos havoid]
  · simp only [buildPlan]
    rw [if_pos havoid]
    exact (defaultPlanText_nonempty _).2.2.2.1

/-- C6 witness: the amended theorem instantiated at the padded-headline
payload with a missing avoid list. -/
theorem C6_plan_healing_witness :
    safeText (some "seems tired") ≠ "" ∧ safeText (some "Possible fatigue") ≠ "" ∧
    roundCoerce (.int 1) = some 1 ∧ d_c6.result_type = some "PLAN" ∧
    safeText d_c6.headline ≠ "" ∧ asStringList d_c6.why ≠ [] ∧
    asStringList d_c6.avoid = [] ∧
    (planHandler (some "seems tired") (some "Possible fatigue") (.int 1) (.ok d_c6)
        = .plan (buildPlan d_c6) ∧
     (buildPlan d_c6).headline = safeText d_c6.headline ∧
     (buildPlan d_c6).why = asStringList d_c6.why ∧
     (buildPlan d_c6).avoid
       = (defaultPlanText (orElseStr (jsToUpper (safeText d_c6.urgency)) "MONITOR_24H")).avoid ∧
     (buildPlan d_c6).avoid ≠ []) :=
  ⟨by decide, by decide, by decide, by decide, by decide, by decide, by decide,
   C6_plan_healing (some "seems tired") (some "Possible fatigue") (.int 1) d_c6
     (by decide) (by decide) (by decide) (by decide) (by decide) (by decide) (by decide)⟩

/-- C7 (confirmed): at round 1, a NEED_MORE_INFO generator outcome whose
sanitized question list is non-empty is passed through as NEED_MORE_INFO
(not replaced by a PLAN) with 1–3 questions, each having a non-empty id,
non-empty text and a recognized type. -/
theorem C7_nmi_passthrough (s t : Option String) (v : RoundInput) (d : GenPlanData)
    (hs : safeText s ≠ "") (ht : safeText t ≠ "") (hr : roundCoerce v = some 1)
    (hty : d.result_type = some "NEED_MORE_INFO")
    (hq : sanitizeQuestions d.questions ≠ []) :
    planHandler s t v (.ok d) = .needMoreInfo (safeText t)
        (orElseStr (safeText d.reason) "A bit more detail will help.")
        ((sanitizeQuestions d.questions).take 3) ∧
    1 ≤ ((sanitizeQuestions d.questions).take 3).length ∧
    ((sanitizeQuestions d.questions).take 3).length ≤ 3 ∧
    questionsWellFormed ((sanitizeQuestions d.questions).take 3) = true := by
  have hpos : 0 < (sanitizeQuestions d.questions).length := List.length_pos.mpr hq
  refine ⟨?_, ?_, ?_, ?_⟩
  · simp [planHandler, planCore, hr, hs, ht, hty, hpos]
  · rw [List.length_take]
    omega
  · rw [List.length_take]
    omega
  · rw [questionsWellFormed, List.all_eq_true]
    intro x hx
    exact sanitizeQuestions_wellFormed d.questions x (List.take_subset 3 _ hx)

/-- C7 witness: the theorem instantiated at a NEED_MORE_INFO payload whose
single raw question needs every fallback. -/
theorem C7_nmi_passthrough_witness :
    safeText (some "coughing at night") ≠ "" ∧
    safeText (some "Possible kennel cough") ≠ "" ∧
    roundCoerce (.int 1) = some 1 ∧
    d_c7.result_type = some "NEED_MORE_INFO" ∧
    sanitizeQuestions d_c7.questions ≠ [] ∧
    (planHandler (some "coughing at night") (some "Possible kennel cough")
        (.int 1) (.ok d_c7) = .needMoreInfo (safeText (some "Possible kennel cough"))
        (orElseStr (safeText d_c7.reason) "A bit more detail will help.")
        ((sanitizeQuestions d_c7.questions).take 3) ∧
     1 ≤ ((sanitizeQuestions d_c7.questions).take 3).length ∧
     ((sanitizeQuestions d_c7.questions).take 3).length ≤ 3 ∧
     questionsWellFormed ((sanitizeQuestions d_c7.questions).take 3) = true) :=
  ⟨by decide, by decide, by decide, by decide, by decide,
   C7_nmi_passthrough (some "coughing at night") (some "Possible kennel cough")
     (.int 1) d_c7 (by decide) (by decide) (by decide) (by decide) (by decide)⟩

/-- C8 (confirmed): for each of the three routes, whitespace-only symptom
notes behave exactly like empty ones — a 400 "Missing symptoms" client
error for every possible gateway behavior, i.e. before the gateway is
contacted. -/
theorem C8_whitespace_symptoms (s : String) (t : Option String) (v : RoundInput)
    (g1 : Except String TipsData) (g2 : Except String ConfirmData)
    (g3 : Except String GenPlanData)
    (hs : jsTrim s = "") :
    tipsHandler (some s) g1 = .clientError "Missing symptoms" ∧
    tipsHandler (some s) g1 = tipsHandler (some "") g1 ∧
    confirmHandler (some s) t g2 = .clientError "Missing symptoms" ∧
    confirmHandler (some s) t g2 = confirmHandler (some "") t g2 ∧
    planHandler (some s) t v g3 = .clientError "Missing symptoms" ∧
    planHandler (some s) t v g3 = planHandler (some "") t v g3 := by
  have h0 : safeText (some s) = "" := hs
  have h1 : safeText (some "") = "" := rfl
  simp [tipsHandler, confirmHandler, planHandler, planCore, h0, h1]

/-- C8 witness: the theorem at a three-space, one-tab symptoms string. -/
theorem C8_whitespace_symptoms_witness :
    jsTrim "   \t" = "" ∧
    (tipsHandler (some "   \t") (.ok tipsTwo) = .clientError "Missing symptoms" ∧
     tipsHandler (some "   \t") (.ok tipsTwo) = tipsHandler (some "") (.ok tipsTwo) ∧
     confirmHandler (some "   \t") (some "Possible upset stomach") (.ok confirmOk)
       = .clientError "Missing symptoms" ∧
     confirmHandler (some "   \t") (some "Possible upset stomach") (.ok confirmOk)
       = confirmHandler (some "") (some "Possible upset stomach") (.ok confirmOk) ∧
     planHandler (some "   \t") (some "Possible upset stomach") (.int 1) (.ok emptyGenData)
       = .clientError "Missing symptoms" ∧
     planHandler (some "   \t") (some "Possible upset stomach") (.int 1) (.ok emptyGenData)
       = planHandler (some "") (some "Possible upset stomach") (.int 1) (.ok emptyGenData)) :=
  ⟨by decide,
   C8_whitespace_symptoms "   \t" (some "Possible upset stomach") (.int 1)
     (.ok tipsTwo) (.ok confirmOk) (.ok emptyGenData) (by decide)⟩

/-- C9 (confirmed): profile normalization is total — present age values are
clamped into 0–50 years and 0–11 months, a profile with both age fields
absent renders its age exactly as "Unknown", and every absent non-age field
renders textually as "Unknown" in the profile block. -/
theorem C9_profile_normalization (p q pr : InProfile) (n m : Int)
    (hy : (normalizeProfile p).ageYears = some n)
    (hm : (normalizeProfile p).ageMonths = some m)
    (hq1 : q.ageYears = .absent) (hq2 : q.age = .absent) (hq3 : q.ageMonths = .absent)
    (hr1 : pr.petName = none) (hr2 : pr.species = none) (hr3 : pr.breed = none)
    (hr4 : pr.petGender = none) (hr5 : pr.weightLb = none)
    (hr6 : pr.city = none) (hr7 : pr.country = none) :
    (0 ≤ n ∧ n ≤ 50) ∧ (0 ≤ m ∧ m ≤ 11) ∧
    formatPetAge (normalizeProfile q).ageYears (normalizeProfile q).ageMonths = "Unknown" ∧
    (profileLines q).get? 4 = some "Age: Unknown" ∧
    (profileLines pr).get? 0 = some "Pet name: Unknown" ∧
    (profileLines pr).get? 1 = some "Species: Unknown" ∧
    (profileLines pr).get? 2 = some "Breed: Unknown" ∧
    (profileLines pr).get? 3 = some "Sex: Unknown" ∧
    (profileLines pr).get? 5 = some "Weight (lb): Unknown" ∧
    (profileLines pr).get? 6 = some "Location: Unknown, Unknown" := by
  have hqa : (normalizeProfile q).ageYears = none := by
    simp [normalizeProfile, hq1, hq2, coalesceToInt, fieldToInt, clampOpt]
  have hqm : (normalizeProfile q).ageMonths = none := by
    simp [normalizeProfile, hq3, fieldToInt, clampOpt]
  refine ⟨?_, ?_, ?_, ?_, ?_, ?_, ?_, ?_, ?_, ?_⟩
  · simp only [normalizeProfile] at hy
    cases hc : coalesceToInt p.ageYears p.age with
    | none => rw [hc] at hy; simp [clampOpt] at hy
    | some k =>
      rw [hc] at hy
      simp only [clampOpt, Option.some.injEq] at hy
      omega
  · simp only [normalizeProfile] at hm
    cases hc : fieldToInt p.ageMonths with
    | none => rw [hc] at hm; simp [clampOpt] at hm
    | some k =>
      rw [hc] at hm
      simp only [clampOpt, Option.some.injEq] at hm
      omega
  · rw [hqa, hqm]
    rfl
  · simp only [profileLines, List.get?]
    rw [hqa, hqm]
    rfl
  · simp only [profileLines, List.get?, normalizeProfile, hr1]
    rfl
  · simp only [profileLines, List.get?, normalizeProfile, hr2]
    rfl
  · simp only [profileLines, List.get?, normalizeProfile, hr3]
    rfl
  · simp only [profileLines, List.get?, normalizeProfile, hr4]
    rfl
  · simp only [profileLines, List.get?, normalizeProfile, hr5]
    rfl
  · simp only [profileLines, List.get?, normalizeProfile, hr6, hr7]
    rfl

/-- C9 witness: the theorem at a profile with out-of-range ages (60 years,
-3 months, which clamp to 50 and 0) and at the all-absent profile. -/
theorem C9_profile_normalization_witness :
    (normalizeProfile wildProfile).ageYears = some 50 ∧
    (normalizeProfile wildProfile).ageMonths = some 0 ∧
    ((0 ≤ (50 : Int) ∧ (50 : Int) ≤ 50) ∧ (0 ≤ (0 : Int) ∧ (0 : Int) ≤ 11) ∧
     formatPetAge (normalizeProfile emptyProfile).ageYears
       (normalizeProfile emptyProfile).ageMonths = "Unknown" ∧
     (profileLines emptyProfile).get? 4 = some "Age: Unknown" ∧
     (profileLines emptyProfile).get? 0 = some "Pet name: Unknown" ∧
     (profileLines emptyProfile).get? 1 = some "Species: Unknown" ∧
     (profileLines emptyProfile).get? 2 = some "Breed: Unknown" ∧
     (profileLines emptyProfile).get? 3 = some "Sex: Unknown" ∧
     (profileLines emptyProfile).get? 5 = some "Weight (lb): Unknown" ∧
     (profileLines emptyProfile).get? 6 = some "Location: Unknown, Unknown") :=
  ⟨by decide, by decide,
   C9_profile_normalization wildProfile emptyProfile emptyProfile 50 0
     (by decide) (by decide) (by decide) (by decide) (by decide) (by decide) (by decide)
     (by decide) (by decide) (by decide) (by decide) (by decide)⟩

/-- C10 (confirmed): a falsy round value (absent, null, false, 0, empty
string) makes the /plan route behave exactly as round 1 — in particular the
request is not rejected for its round — and the numeric strings "1" and "2"
are accepted via `Number()` coercion as rounds 1 and 2. -/
theorem C10_falsy_round (s t : Option String) (v : RoundInput)
    (gw : Except String GenPlanData)
    (hf : jsTruthy v = false) :
    planHandler s t v gw = planHandler s t (.int 1) gw ∧
    planHandler s t (.str "1") gw = planHandler s t (.int 1) gw ∧
    planHandler s t (.str "2") gw = planHandler s t (.int 2) gw ∧
    roundCoerce v = some 1 ∧
    (planHandler (some "vomiting since morning") (some "Possible upset stomach")
      v gw).isClientErr = false := by
  have h1 : roundCoerce v = some 1 := by
    unfold roundCoerce
    rw [hf]
    simp
  have h2 : roundCoerce (RoundInput.int 1) = some 1 := by decide
  have h3 : roundCoerce (RoundInput.str "1") = some 1 := by decide
  have h4 : roundCoerce (RoundInput.str "2") = some 2 := by decide
  have h5 : roundCoerce (RoundInput.int 2) = some 2 := by decide
  have hn : safeText (some "vomiting since morning") = "vomiting since morning" := rfl
  have hti : safeText (some "Possible upset stomach") = "Possible upset stomach" := rfl
  refine ⟨?_, ?_, ?_, h1, ?_⟩
  · unfold planHandler
    rw [h1, h2]
  · unfold planHandler
    rw [h3, h2]
  · unfold planHandler
    rw [h4, h5]
  · unfold planHandler
    rw [h1, hn, hti]
    cases gw with
    | error e => rfl
    | ok data =>
      have hc1 : ¬("vomiting since morning" = "") := by decide
      have hc2 : ¬("Possible upset stomach" = "") := by decide
      have hc3 : ¬¬((some 1 : Option Int) = some 1 ∨ (some 1 : Option Int) = some 2) :=
        not_not_intro (Or.inl rfl)
      unfold planCore
      rw [if_neg hc1, if_neg hc2, if_neg hc3]
      split <;> first | rfl | (split <;> rfl)

/-- C10 witness: the theorem at a null round value with a concrete request
and generator payload. -/
theorem C10_falsy_round_witness :
    jsTruthy RoundInput.null = false ∧
    (planHandler (some "fever maybe") (some "Possible cold") .null (.ok emptyGenData)
       = planHandler (some "fever maybe") (some "Possible cold") (.int 1) (.ok emptyGenData) ∧
     planHandler (some "fever maybe") (some "Possible cold") (.str "1") (.ok emptyGenData)
       = planHandler (some "fever maybe") (some "Possible cold") (.int 1) (.ok emptyGenData) ∧
     planHandler (some "fever maybe") (some "Possible cold") (.str "2") (.ok emptyGenData)
       = planHandler (some "fever maybe") (some "Possible cold") (.int 2) (.ok emptyGenData) ∧
     roundCoerce .null = some 1 ∧
     (planHandler (some "vomiting since morning") (some "Possible upset stomach")
       .null (.ok emptyGenData)).isClientErr = false) :=
  ⟨by decide,
   C10_falsy_round (some "fever maybe") (some "Possible cold") .null
     (.ok emptyGenData) (by decide)⟩
